import Mathlib

/-!
Shallow embedding of the validated-streams node's gossip layer and gRPC
boundary, translated from `src/node/src/gossip.rs` and
`src/node/src/streams/server/mod.rs`.

Bytes are modelled as `Nat` (the translation of `u8`/`Vec<u8>`); where a
width matters the encoder reduces modulo 256 explicitly.  Asynchronous Rust
code is modelled by explicit effect traces: each translated operation
returns the list of observable effects it performs, in order.  An
`Effect.awaitHandleWitnessedEvent` entry records a call of
`events_service.handle_witnessed_event(..)` that the caller `.await`s to
completion (the `.await` is in the source text); a trace with no such entry
means the collaborator is never invoked.
-/

/-- Network addresses (`libp2p::Multiaddr`) are opaque to this layer. -/
abbrev Multiaddr := String

/-- Gossipsub topics (`libp2p::gossipsub::IdentTopic`) are opaque names. -/
abbrev IdentTopic := String

/-- Translation of `sp_core::H256`: a fixed 32-byte identifier.  The length
invariant is carried in the type because `H256::from_slice` panics on any
slice whose length is not 32. -/
abbrev H256 := { l : List Nat // l.length = 32 }

/-- Translation of `H256::from_slice`: in the source it panics unless the
slice has length exactly 32, so the embedding demands that proof. -/
def H256.from_slice (l : List Nat) (h : l.length = 32) : H256 := ⟨l, h⟩

/-- Translation of `WitnessedEvent` (gossip.rs lines 21-26): signature
bytes, public-key bytes and a 32-byte event identifier. -/
structure WitnessedEvent where
  signature : List Nat
  pub_key : List Nat
  event_id : H256
  deriving DecidableEq

/-- Translation of `Order` (gossip.rs line 19): a topic paired with an
opaque payload, queued for publication. -/
structure Order where
  topic : IdentTopic
  payload : List Nat
  deriving DecidableEq

/-- Observable effects of the translated operations, in program order.
`dialAttempt p` records the call `swarm.dial(p)`;
`awaitHandleWitnessedEvent ev` records
`events_service.handle_witnessed_event(ev).await` (an awaited call whose
`Result` is then discarded by `.ok()`); `publishAttempt` records
`behaviour_mut().publish(..)`. -/
inductive Effect where
  | logInfo (msg : String)
  | logError (msg : String)
  | dialAttempt (peer : Multiaddr)
  | awaitHandleWitnessedEvent (ev : WitnessedEvent)
  | publishAttempt (topic : IdentTopic) (payload : List Nat)
  deriving DecidableEq

/-! ## Wire format of `WitnessedEvent`

gossip.rs decodes inbound payloads with
`bincode::deserialize::<WitnessedEvent>(message.data.as_slice())`.
Modelled from the spec: the byte-level layout produced by the external
`serde`/`bincode` library code (not part of this repository's sources) is
taken from spec section 6 — fixed field order, variable-length signature
bytes and public-key bytes each preceded by their length, then the fixed
32-byte identifier; bincode's legacy options write lengths as 8-byte
little-endian `u64` and allow trailing bytes on decode. -/

/-- Little-endian 8-byte encoding of a `u64` length. -/
def u64LeBytes (n : Nat) : List Nat :=
  [n % 256, n / 256 % 256, n / 65536 % 256, n / 16777216 % 256,
   n / 4294967296 % 256, n / 1099511627776 % 256,
   n / 281474976710656 % 256, n / 72057594037927936 % 256]

/-- Reads an 8-byte little-endian `u64` from the front of a byte list,
returning the value and the remaining bytes. -/
def readU64Le : List Nat → Option (Nat × List Nat)
  | b0 :: b1 :: b2 :: b3 :: b4 :: b5 :: b6 :: b7 :: rest =>
    some (b0 + 256 * b1 + 65536 * b2 + 16777216 * b3 + 4294967296 * b4 +
      1099511627776 * b5 + 281474976710656 * b6 + 72057594037927936 * b7, rest)
  | _ => none

/-- Reads exactly `n` bytes from the front of a byte list, failing when
fewer are available. -/
def readBytes (n : Nat) (bs : List Nat) : Option (List Nat × List Nat) :=
  if n ≤ bs.length then some (bs.take n, bs.drop n) else none

/-- Serialization of a `WitnessedEvent` under the wire layout above:
length-prefixed signature, length-prefixed public key, raw 32-byte
identifier. -/
def bincode_serialize_witnessed_event (e : WitnessedEvent) : List Nat :=
  u64LeBytes e.signature.length ++ e.signature ++
    u64LeBytes e.pub_key.length ++ e.pub_key ++ e.event_id.val

/-- Deserialization of a `WitnessedEvent`: reads the three fields in order
and ignores trailing bytes, failing on any truncated or malformed input. -/
def bincode_deserialize_witnessed_event (bs : List Nat) : Option WitnessedEvent :=
  (readU64Le bs).bind fun sl =>
  (readBytes sl.1 sl.2).bind fun sig =>
  (readU64Le sig.2).bind fun pl =>
  (readBytes pl.1 pl.2).bind fun pk =>
  (readBytes 32 pk.2).bind fun idp =>
  if h : idp.1.length = 32 then
    some ⟨sig.1, pk.1, ⟨idp.1, h⟩⟩
  else
    none

/-! ## The gossip loop body (gossip.rs lines 107-137)

`handle_incoming_messages` loops forever, racing the next swarm event
against the next queued `Order`.  Each arm of the race is translated as a
total function from the received input to the effect trace of that one
iteration; totality of these functions reflects that neither arm contains
any fault-propagation path (no `?`, no `panic!`), so every iteration runs
to completion and the loop continues. -/

/-- Translation of `libp2p::swarm::SwarmEvent` restricted to the arms the
loop distinguishes: a new listen address, a gossipsub subscription
acknowledgment, an inbound gossipsub message, and everything else. -/
inductive SwarmEvent where
  | newListenAddr (address : Multiaddr)
  | subscribed (peer_id : String) (topic : String)
  | message (data : List Nat)
  | other
  deriving DecidableEq

/-- Translation of the swarm-event arm of the `select!` in
`handle_incoming_messages` (gossip.rs lines 115-127).
`handle_witnessed_event` is the external collaborator
`events_service.handle_witnessed_event`; the source awaits it and discards
its `Result` with `.ok()`, which the embedding renders as the
`awaitHandleWitnessedEvent` effect with the collaborator's outcome bound
and dropped. -/
def handle_swarm_event (handle_witnessed_event : WitnessedEvent → Except String Unit)
    (event : SwarmEvent) : List Effect :=
  match event with
  | .newListenAddr address => [.logInfo ("Listening on " ++ address)]
  | .subscribed _ _ => []
  | .message data =>
    match bincode_deserialize_witnessed_event data with
    | some witnessed_event =>
      let _discarded := (handle_witnessed_event witnessed_event).toOption
      [.awaitHandleWitnessedEvent witnessed_event]
    | none => [.logError "failed deserilizing message data due to error"]
  | .other => []

/-- Translation of the order arm of the `select!` in
`handle_incoming_messages` (gossip.rs lines 129-134): publish the queued
order, logging the message id on success and the error on failure. -/
def handle_order (publish : IdentTopic → List Nat → Except String String)
    (order : Order) : List Effect :=
  .publishAttempt order.topic order.payload ::
    match publish order.topic order.payload with
    | .ok id => [.logInfo ("Gossiped msg with id:" ++ id)]
    | .error e => [.logInfo ("Failed Gossiping message with Error: " ++ e)]

/-- Translation of `StreamsGossip::dial_peers` (gossip.rs lines 74-85):
dial each peer in order, logging failure or success per peer; `dial` is
the underlying `swarm.dial`. -/
def dial_peers (dial : Multiaddr → Except String Unit) :
    List Multiaddr → List Effect
  | [] => []
  | peer :: rest =>
    (Effect.dialAttempt peer ::
      match dial peer with
      | .error e => [.logInfo ("Error dialing peer " ++ e)]
      | .ok _ => [.logInfo "🤜🤛 Dialed Succefully"]) ++
    dial_peers dial rest

/-- Addresses of the dial attempts recorded in an effect trace, in order. -/
def dialAttempts (trace : List Effect) : List Multiaddr :=
  trace.filterMap fun e =>
    match e with
    | .dialAttempt p => some p
    | _ => none

/-- Translation of `StreamsGossip::subscribe` (gossip.rs lines 87-89):
`behaviour_subscribe` is the underlying `behaviour_mut().subscribe`, whose
`Result` the source discards with `.ok()`.  The `Except String Unit`
codomain models what the operation could propagate to its caller; the
translated body always returns `.ok ()`. -/
def StreamsGossip.subscribe (behaviour_subscribe : IdentTopic → Except String Bool)
    (topic : IdentTopic) : Except String Unit :=
  let _discarded := (behaviour_subscribe topic).toOption
  .ok ()

/-! ## The gRPC boundary (streams/server/mod.rs) -/

/-- Translation of `std::io::ErrorKind` restricted to the variant used. -/
inductive IoErrorKind where
  | other
  deriving DecidableEq

/-- Translation of `tonic::Status` restricted to the constructions the
source performs: `Status::aborted(msg)` and the `From<std::io::Error>`
conversion applied by `.into()`. -/
inductive Status where
  | aborted (msg : String)
  | ofIoError (kind : IoErrorKind) (msg : String)
  deriving DecidableEq

/-- Translation of the generated `ValidateEventRequest` message: the raw
event-identifier bytes. -/
structure ValidateEventRequest where
  event_id : List Nat
  deriving DecidableEq

/-- Translation of `tonic::Request<ValidateEventRequest>`: the wrapper
exposing `remote_addr()` (absent when the origin address cannot be
retrieved) and `into_inner()`. -/
structure GrpcRequest where
  remote_addr : Option String
  inner : ValidateEventRequest
  deriving DecidableEq

/-- Translation of the generated `ValidateEventResponse` message. -/
structure ValidateEventResponse where
  status : String
  deriving DecidableEq

/-- Translation of `ValidatedStreamsNode::validate_event`
(streams/server/mod.rs lines 38-59).  `handle_client_request` is the
external collaborator `events_service.handle_client_request`; the second
component of the result records, in order, every argument passed to it, so
an empty list witnesses that the downstream lookup was never invoked. -/
def validate_event (handle_client_request : H256 → Except String String)
    (request : GrpcRequest) : Except Status ValidateEventResponse × List H256 :=
  match request.remote_addr with
  | none => (.error (.aborted "Malformed Request, can't retreive Origin address"), [])
  | some _ =>
    let event := request.inner
    if h : event.event_id.length = 32 then
      let id := H256.from_slice event.event_id h
      match handle_client_request id with
      | .ok status => (.ok ⟨status⟩, [id])
      | .error e => (.error (.aborted e), [id])
    else
      (.error (.ofIoError .other "invalid event_id sent"), [])

/-! ## Startup of the gRPC server (streams/server/mod.rs lines 120-133)

`run` spawns the tonic server on a fresh task and matches on the *join*
result of that task.  The spawned task's own value — the `Result` of
`Server::serve` — appears inside the join result's `Ok` constructor. -/

/-- Outcome of `run` after the final `match`: either the function returns
normally or it executes `panic!`. -/
inductive RunOutcome where
  | returned
  | panicked (msg : String)
  deriving DecidableEq

/-- Translation of the tail of `ValidatedStreamsNode::run`
(streams/server/mod.rs lines 120-133): the scrutinee is
`tokio::spawn(..).await`, whose `Ok` carries the spawned task's value —
itself the `Result` of `Server::builder()...serve(..)` — and whose `Err`
is a join error (the task panicked or was cancelled). -/
def run_server_spawn_result (join_result : Except String (Except String Unit)) :
    RunOutcome :=
  match join_result with
  | .ok _ => .returned
  | .error e => .panicked ("Failed Creating StreamsServer due to Err: " ++ e)

/-! ## Concrete sample values used by witnesses and counterexamples -/

/-- A 32-byte all-zero event identifier. -/
def sampleId : H256 := ⟨List.replicate 32 0, by simp⟩

/-- A witnessed event with empty signature and public key. -/
def sampleEvent : WitnessedEvent := ⟨[], [], sampleId⟩

/-- The wire encoding of `sampleEvent`: two zero length prefixes followed
by the 32 zero identifier bytes. -/
def sampleEncoded : List Nat := List.replicate 48 0

/-- A sample downstream collaborator for witnesses: accepts every id. -/
def sampleHandler : H256 → Except String String := fun _ => .ok "witnessed"

/-- True when a trace contains a log entry of either severity. -/
def containsLogEntry (trace : List Effect) : Bool :=
  trace.any fun e =>
    match e with
    | .logInfo _ => true
    | .logError _ => true
    | _ => false

/-- Reading a length prefix back off the front of an encoded stream
recovers the length and the remaining bytes. -/
theorem readU64Le_append (n : Nat) (rest : List Nat)
    (h : n < 18446744073709551616) :
    readU64Le (u64LeBytes n ++ rest) = some (n, rest) := by
  dsimp only [u64LeBytes, List.cons_append, List.nil_append, readU64Le]
  simp only [Option.some.injEq, Prod.mk.injEq, and_true]
  omega

/-- Reading back exactly the bytes of a list prefixed to a stream recovers
that list and the remaining stream. -/
theorem readBytes_append (l rest : List Nat) :
    readBytes l.length (l ++ rest) = some (l, rest) := by
  have hle : l.length ≤ (l ++ rest).length := by simp
  rw [readBytes, if_pos hle, List.take_left, List.drop_left]

/-- Reading a whole list of known length consumes it exactly. -/
theorem readBytes_all (n : Nat) (l : List Nat) (h : l.length = n) :
    readBytes n l = some (l, []) := by
  subst h
  have := readBytes_append l []
  rwa [List.append_nil] at this

/-- Claim C1: for every validation request whose event-identifier byte
sequence has length different from 32, `validate_event` returns an
explicit error and never invokes the downstream `handle_client_request`
lookup (the recorded call list is empty). -/
theorem validate_event_rejects_wrong_length
    (handle_client_request : H256 → Except String String) (request : GrpcRequest)
    (h : request.inner.event_id.length ≠ 32) :
    (∃ s, (validate_event handle_client_request request).1 = .error s) ∧
      (validate_event handle_client_request request).2 = [] := by
  obtain ⟨ra, ev⟩ := request
  dsimp only at h
  cases ra with
  | none => exact ⟨⟨_, rfl⟩, rfl⟩
  | some a =>
    dsimp only [validate_event]
    rw [dif_neg h]
    exact ⟨⟨_, rfl⟩, rfl⟩

/-- Witness for C1: a 33-byte identifier is rejected with an error and an
empty downstream-call list. -/
theorem validate_event_rejects_wrong_length_witness :
    (∃ s, (validate_event sampleHandler
      ⟨some "peer", ⟨List.replicate 33 0⟩⟩).1 = .error s) ∧
    (validate_event sampleHandler ⟨some "peer", ⟨List.replicate 33 0⟩⟩).2 = [] :=
  validate_event_rejects_wrong_length sampleHandler
    ⟨some "peer", ⟨List.replicate 33 0⟩⟩ (by decide)

/-- Claim C6: for every well-formed request whose identifier has length
exactly 32, `validate_event` forwards exactly those 32 bytes, unchanged,
to the downstream `handle_client_request` call. -/
theorem validate_event_forwards_exact_bytes
    (handle_client_request : H256 → Except String String) (request : GrpcRequest)
    (a : String) (hr : request.remote_addr = some a)
    (h32 : request.inner.event_id.length = 32) :
    ((validate_event handle_client_request request).2).map Subtype.val
      = [request.inner.event_id] := by
  obtain ⟨ra, ev⟩ := request
  dsimp only at hr h32 ⊢
  subst hr
  dsimp only [validate_event]
  rw [dif_pos h32]
  cases handle_client_request (H256.from_slice ev.event_id h32) <;> rfl

/-- Witness for C6: a concrete 32-byte identifier is passed through
unchanged as the single downstream call. -/
theorem validate_event_forwards_exact_bytes_witness :
    ((validate_event sampleHandler
      ⟨some "peer", ⟨List.replicate 32 7⟩⟩).2).map Subtype.val
      = [List.replicate 32 7] :=
  validate_event_forwards_exact_bytes sampleHandler
    ⟨some "peer", ⟨List.replicate 32 7⟩⟩ "peer" rfl (by decide)

/-- Claim C9: when the origin address cannot be retrieved,
`validate_event` returns the aborted-request error immediately, with no
downstream call, regardless of the identifier (even a well-formed one). -/
theorem validate_event_no_remote_addr_aborts
    (handle_client_request : H256 → Except String String) (request : GrpcRequest)
    (h : request.remote_addr = none) :
    validate_event handle_client_request request =
      (.error (.aborted "Malformed Request, can't retreive Origin address"), []) := by
  obtain ⟨ra, ev⟩ := request
  dsimp only at h
  subst h
  rfl

/-- Witness for C9: a request with a well-formed 32-byte identifier but no
origin address is aborted with no downstream call. -/
theorem validate_event_no_remote_addr_aborts_witness :
    validate_event sampleHandler ⟨none, ⟨List.replicate 32 0⟩⟩ =
      (.error (.aborted "Malformed Request, can't retreive Origin address"), []) :=
  validate_event_no_remote_addr_aborts sampleHandler
    ⟨none, ⟨List.replicate 32 0⟩⟩ rfl

/-- Claim C4 (evaluating the code at the failing input): when the spawned
server task completes with a serve error — the join result is
`Ok (Err e)`, as happens when binding the request/response endpoint fails —
the final `match` of `run` takes its `Ok` arm and returns normally,
silently swallowing the serve error instead of aborting. -/
theorem run_swallows_serve_error :
    run_server_spawn_result
      (.ok (.error "transport error: failed to bind [::0]:5555"))
      = .returned :=
  rfl

/-- Claim C7: every address in the collection handed to `dial_peers` is
dialed, in order, whatever the per-peer dial outcomes are — a failed dial
never prevents the remaining peers from being attempted. -/
theorem dial_peers_attempts_every_peer (dial : Multiaddr → Except String Unit)
    (peers : List Multiaddr) : dialAttempts (dial_peers dial peers) = peers := by
  induction peers with
  | nil => rfl
  | cons p rest ih =>
    dsimp only [dial_peers]
    cases dial p <;>
      simp only [dialAttempts, List.filterMap_append, List.filterMap_cons,
        List.filterMap_nil, List.cons_append, List.nil_append] <;>
      exact congrArg (p :: ·) ih

/-- Claim C10: `subscribe` discards the underlying behavior's subscription
result with `.ok()` and returns normally for every topic, so its caller
can never observe a subscription failure. -/
theorem subscribe_never_propagates
    (behaviour_subscribe : IdentTopic → Except String Bool) (topic : IdentTopic) :
    StreamsGossip.subscribe behaviour_subscribe topic = .ok () :=
  rfl

/-- Claim C2: for every inbound payload that fails to decode as a
`WitnessedEvent`, the gossip loop's iteration only logs the error: the
validation collaborator is never invoked and the iteration completes
normally, so the loop continues. -/
theorem gossip_decode_failure_contained
    (handle_witnessed_event : WitnessedEvent → Except String Unit)
    (data : List Nat) (h : bincode_deserialize_witnessed_event data = none) :
    handle_swarm_event handle_witnessed_event (.message data)
      = [.logError "failed deserilizing message data due to error"] ∧
    ∀ ev, Effect.awaitHandleWitnessedEvent ev ∉
      handle_swarm_event handle_witnessed_event (.message data) := by
  have htr : handle_swarm_event handle_witnessed_event (.message data)
      = [.logError "failed deserilizing message data due to error"] := by
    dsimp only [handle_swarm_event]
    rw [h]
  refine ⟨htr, ?_⟩
  rw [htr]
  intro ev hm
  simp at hm

/-- Witness for C2: the empty payload fails to decode and its iteration is
exactly one error log. -/
theorem gossip_decode_failure_contained_witness :
    bincode_deserialize_witnessed_event [] = none ∧
    handle_swarm_event (fun _ => .ok ()) (.message [])
      = [.logError "failed deserilizing message data due to error"] :=
  ⟨rfl, (gossip_decode_failure_contained (fun _ => .ok ()) [] rfl).1⟩

/-- Counterexample to claim C5 as stated: on a concrete decodable payload
the loop's iteration consists of an awaited collaborator call — the trace
is `[awaitHandleWitnessedEvent ..]`, the translation of
`handle_witnessed_event(..).await.ok()` — so the hand-off is not
fire-and-forget: the loop blocks on the collaborator's completion. -/
theorem gossip_handoff_awaited_counterexample :
    bincode_deserialize_witnessed_event sampleEncoded = some sampleEvent ∧
    handle_swarm_event (fun _ => .ok ()) (.message sampleEncoded)
      = [.awaitHandleWitnessedEvent sampleEvent] := by
  constructor
  · decide
  · dsimp only [handle_swarm_event]
    rw [show bincode_deserialize_witnessed_event sampleEncoded
        = some sampleEvent from by decide]

/-- Claim C5 as amended: when the gossip loop successfully decodes an
inbound `WitnessedEvent`, it invokes the validation collaborator and
awaits its completion, discarding the returned outcome (the trace is the
same for every collaborator, so no collaborator error propagates), and the
iteration then completes so the loop continues. -/
theorem gossip_handoff_awaits_and_discards
    (handle_witnessed_event : WitnessedEvent → Except String Unit)
    (data : List Nat) (ev : WitnessedEvent)
    (h : bincode_deserialize_witnessed_event data = some ev) :
    handle_swarm_event handle_witnessed_event (.message data)
      = [.awaitHandleWitnessedEvent ev] := by
  dsimp only [handle_swarm_event]
  rw [h]

/-- Witness for C5 (amended): a failing collaborator leaves the iteration
of a concrete decodable payload unchanged — its error is discarded. -/
theorem gossip_handoff_awaits_and_discards_witness :
    handle_swarm_event (fun _ => .error "collaborator failed")
      (.message sampleEncoded) = [.awaitHandleWitnessedEvent sampleEvent] :=
  gossip_handoff_awaits_and_discards (fun _ => .error "collaborator failed")
    sampleEncoded sampleEvent (by decide)

/-- Counterexample to claim C8 as stated: the subscription-acknowledgment
arm of the loop is an empty block, so on a concrete acknowledgment the
trace is empty and in particular contains no log entry. -/
theorem gossip_subscribed_no_log_counterexample :
    handle_swarm_event (fun _ => .ok ())
      (.subscribed "peer" "WitnessedEvent") = [] ∧
    containsLogEntry (handle_swarm_event (fun _ => .ok ())
      (.subscribed "peer" "WitnessedEvent")) = false :=
  ⟨rfl, rfl⟩

/-- Claim C8 as amended: the gossip loop ignores a subscription
acknowledgment entirely — no log entry and no other effect. -/
theorem gossip_subscribed_ignored
    (handle_witnessed_event : WitnessedEvent → Except String Unit)
    (peer topic : String) :
    handle_swarm_event handle_witnessed_event (.subscribed peer topic) = [] :=
  rfl

/-- Claim C3: for every `WitnessedEvent` — arbitrary (including empty)
signature and public-key byte vectors whose lengths fit in a `u64`, and
any 32-byte identifier — deserializing the serialization yields the
original event. -/
theorem bincode_roundtrip (e : WitnessedEvent)
    (hs : e.signature.length < 18446744073709551616)
    (hp : e.pub_key.length < 18446744073709551616) :
    bincode_deserialize_witnessed_event (bincode_serialize_witnessed_event e)
      = some e := by
  obtain ⟨sig, pk, id⟩ := e
  obtain ⟨idb, hid⟩ := id
  dsimp only at hs hp
  dsimp only [bincode_serialize_witnessed_event, bincode_deserialize_witnessed_event]
  simp only [List.append_assoc]
  rw [readU64Le_append _ _ hs, Option.some_bind]
  dsimp only
  rw [readBytes_append, Option.some_bind]
  dsimp only
  rw [readU64Le_append _ _ hp, Option.some_bind]
  dsimp only
  rw [readBytes_append, Option.some_bind]
  dsimp only
  rw [readBytes_all 32 idb hid, Option.some_bind]
  dsimp only
  rw [dif_pos hid]

/-- Witness for C3: the concrete sample event with empty signature and
public key round-trips through the wire format. -/
theorem bincode_roundtrip_witness :
    sampleEvent.signature.length < 18446744073709551616 ∧
    sampleEvent.pub_key.length < 18446744073709551616 ∧
    bincode_deserialize_witnessed_event
      (bincode_serialize_witnessed_event sampleEvent) = some sampleEvent :=
  ⟨by decide, by decide, bincode_roundtrip sampleEvent (by decide) (by decide)⟩
